import Mathlib

/-!
Verification of the Anime Wallpapers API backend (`src/main.py`, `src/schemas.py`).

The embedding follows the source: the Pydantic schemas become Lean structures,
the FastAPI route handlers become pure functions over an explicit store state
(an association list from ObjectId strings to wallpaper documents), and
fallible paths return `Except`.  The document-store gateway (`database.py`,
imported by `main.py` but not part of the sources) and the MongoDB filter
evaluation are modelled from the spec where noted.
-/

set_option autoImplicit false

namespace Wallpapers

/-- `schemas.py` `ResolutionLinks`: optional URLs per device class.
URLs are modelled as strings; Pydantic's `HttpUrl` format check appears in
`validateWallpaper` below. -/
structure ResolutionLinks where
  mobile : Option String
  desktop : Option String
  deriving Repr, DecidableEq

/-- `schemas.py` `Wallpaper`: the stored document shape.  `price` is modelled
as an integer number of cents to keep the development decidable; only its
sign constraint (`ge=0`) matters to any claim. -/
structure Wallpaper where
  title : String
  anime : String
  tags : List String
  thumbnail_url : String
  image_urls : ResolutionLinks
  is_premium : Bool
  price : Int
  author : Option String
  color_palette : List String
  aspect_ratio : Option String
  downloads : Nat
  deriving Repr, DecidableEq

/-- The error taxonomy of the handlers in `main.py`:
`validation` is FastAPI's request-validation rejection (422),
`notFound` the explicit 404, `invalidState` the explicit 400
("Download URL not available"), `internal` the generic 500 guard. -/
inductive ApiError where
  | validation
  | notFound
  | invalidState
  | internal
  deriving Repr, DecidableEq

/-- HTTP status code of each error, as raised in `main.py`. -/
def statusCode : ApiError → Nat
  | .validation => 422
  | .notFound => 404
  | .invalidState => 400
  | .internal => 500

/-- Python truthiness of an optional string (`if q:` in `main.py`):
`None` and the empty string are falsy. -/
def pyTruthy : Option String → Bool
  | none => false
  | some s => s ≠ ""

/-- Python `a or b` on optional strings (`image_urls.get("desktop") or
image_urls.get("mobile")` in `download_wallpaper`): returns the first
truthy operand, else the second. -/
def pyOr (a b : Option String) : Option String :=
  if pyTruthy a then a else b

/-- Whether `p` is an initial segment of `h` (character lists). -/
def leadsWith : List Char → List Char → Bool
  | [], _ => true
  | _ :: _, [] => false
  | c :: p, d :: h => c == d && leadsWith p h

/-- Whether `p` occurs contiguously inside `h` (character lists). -/
def occursIn (p : List Char) : List Char → Bool
  | [] => leadsWith p []
  | d :: h => leadsWith p (d :: h) || occursIn p h

/-- Modelled from the spec: case-insensitive substring containment, the
meaning of a MongoDB `{"$regex": pat, "$options": "i"}` condition for the
plain-text patterns the spec describes ("case-insensitive substring
conditions", §4.2). -/
def containsCI (haystack pat : String) : Bool :=
  occursIn (pat.data.map Char.toLower) (haystack.data.map Char.toLower)

/-- One field condition of the MongoDB filter dictionary built by
`list_wallpapers`:
`regexI pat` is `{"$regex": pat, "$options": "i"}`,
`elemMatchRegexI pat` is `{"$elemMatch": {"$regex": pat, "$options": "i"}}`,
`eqBool b` is a literal boolean (exact match). -/
inductive FieldCond where
  | regexI (pat : String)
  | elemMatchRegexI (pat : String)
  | eqBool (b : Bool)
  deriving Repr, DecidableEq

/-- The shape of the filter dictionary `filter_query` in `list_wallpapers`:
an optional `$or` list of field conditions plus top-level field conditions,
each keyed by a document field name. -/
structure FilterQuery where
  orGroup : Option (List (String × FieldCond))
  fields : List (String × FieldCond)
  deriving Repr, DecidableEq

/-- Modelled from the spec: MongoDB evaluation of one field condition against
a wallpaper document (substring/pattern match on a scalar field, element-wise
match on the `tags` array, exact match on the boolean field; glossary
"filter expression"). -/
def evalFieldCond (doc : Wallpaper) : String × FieldCond → Bool
  | ("title", .regexI pat) => containsCI doc.title pat
  | ("anime", .regexI pat) => containsCI doc.anime pat
  | ("tags", .elemMatchRegexI pat) => doc.tags.any (fun t => containsCI t pat)
  | ("is_premium", .eqBool b) => doc.is_premium == b
  | _ => false

/-- Modelled from the spec: MongoDB evaluation of the whole filter — the
`$or` group requires at least one alternative to hold, and all top-level
field conditions are combined with logical AND (§4.2). -/
def matchesFilter (f : FilterQuery) (doc : Wallpaper) : Bool :=
  (match f.orGroup with
   | none => true
   | some conds => conds.any (evalFieldCond doc)) &&
  f.fields.all (evalFieldCond doc)

/-- The filter builder of `list_wallpapers` (`main.py` lines 91–101),
translated clause for clause: `if q:` adds the three-way `$or` group,
`if anime:` adds a top-level regex condition on `anime`, `if premium is not
None:` adds the exact-match condition on `is_premium`. -/
def buildFilter (q anime : Option String) (premium : Option Bool) : FilterQuery :=
  let f : FilterQuery := { orGroup := none, fields := [] }
  let f := if pyTruthy q then
      { f with orGroup := some [("title", .regexI (q.getD "")),
                                ("anime", .regexI (q.getD "")),
                                ("tags", .elemMatchRegexI (q.getD ""))] }
    else f
  let f := if pyTruthy anime then
      { f with fields := f.fields ++ [("anime", .regexI (anime.getD ""))] }
    else f
  match premium with
  | some b => { f with fields := f.fields ++ [("is_premium", .eqBool b)] }
  | none => f

/-- The store: MongoDB's `wallpaper` collection, an association list from
ObjectId strings to documents. -/
abbrev Store := List (String × Wallpaper)

/-- Modelled from the spec: FastAPI's validation of the `limit` query
parameter declared in `main.py` line 88 as `Query(24, ge=1, le=100)` —
default 24 when absent, rejected (not clamped) when outside `[1, 100]`. -/
def validateLimit : Option Int → Except ApiError Nat
  | none => .ok 24
  | some n => if 1 ≤ n ∧ n ≤ 100 then .ok n.toNat else .error .validation

/-- Modelled from the spec: `get_documents` from the missing `database.py`
(§4.1 `find`): returns up to `limit` documents matching the filter. -/
def get_documents (store : Store) (f : FilterQuery) (limit : Nat) : Store :=
  (store.filter (fun p => matchesFilter f p.2)).take limit

/-- The `GET /api/wallpapers` handler `list_wallpapers` (`main.py` lines
83–109): FastAPI validates `limit` before the handler body runs; the handler
builds the filter, queries the store, and returns the items (the `_id → id`
rename is the pairing of each document with its identifier string). -/
def list_wallpapers (store : Store) (q anime : Option String)
    (premium : Option Bool) (rawLimit : Option Int) : Except ApiError Store :=
  match validateLimit rawLimit with
  | .error e => .error e
  | .ok limit => .ok (get_documents store (buildFilter q anime premium) limit)

/-- A BSON hexadecimal digit. -/
def isHexDigit (c : Char) : Bool :=
  c.isDigit || ('a' ≤ c && c ≤ 'f') || ('A' ≤ c && c ≤ 'F')

/-- Whether `ObjectId(s)` succeeds in `bson`: a 24-character hexadecimal
string (any other string raises `InvalidId`). -/
def isValidObjectId (s : String) : Bool :=
  s.length == 24 && s.data.all isHexDigit

/-- `db.wallpaper.find_one({"_id": oid})`: first document stored under the
identifier. -/
def find_one (store : Store) (oid : String) : Option Wallpaper :=
  match store with
  | [] => none
  | p :: rest => if p.1 = oid then some p.2 else find_one rest oid

/-- Modelled from the spec: the atomic MongoDB update
`db.wallpaper.update_one({"_id": oid}, {"$inc": {"downloads": 1}})` — the
single-field increment the store applies atomically (§5). -/
def incDownloads (store : Store) (oid : String) : Store :=
  store.map (fun p =>
    if p.1 = oid then (p.1, { p.2 with downloads := p.2.downloads + 1 }) else p)

/-- The `POST /api/wallpapers/{wallpaper_id}/download` handler
`download_wallpaper` (`main.py` lines 115–137), returning the response and
the store after the request.  `ObjectId(wallpaper_id)` raising on a
malformed identifier is caught by the handler's generic `except Exception`
guard, hence the 500; a missing document gives the explicit 404; the
counter increment precedes URL selection; Python truthiness (`if not url`)
guards the explicit 400. -/
def download_wallpaper (store : Store) (wallpaper_id : String)
    (device : String) : Except ApiError String × Store :=
  if ¬ isValidObjectId wallpaper_id then (.error .internal, store)
  else
    match find_one store wallpaper_id with
    | none => (.error .notFound, store)
    | some doc =>
        let store' := incDownloads store wallpaper_id
        let url : Option String :=
          if device == "mobile" then doc.image_urls.mobile
          else pyOr doc.image_urls.desktop doc.image_urls.mobile
        if ¬ pyTruthy url then (.error .invalidState, store')
        else (.ok (url.getD ""), store')

/-- The raw JSON body of a create request before validation: every field of
the `Wallpaper` shape may be present or absent. -/
structure RawPayload where
  title : Option String
  anime : Option String
  tags : Option (List String)
  thumbnail_url : Option String
  image_urls : Option ResolutionLinks
  is_premium : Option Bool
  price : Option Int
  author : Option String
  color_palette : Option (List String)
  aspect_ratio : Option String
  downloads : Option Int
  deriving Repr, DecidableEq

/-- Pydantic's `HttpUrl` format check, abstracted to its observable core:
an absolute http(s) URL (in particular, never the empty string). -/
def isHttpUrl (s : String) : Bool :=
  leadsWith "http://".data s.data || leadsWith "https://".data s.data

/-- Modelled from the spec: FastAPI/Pydantic validation of the create
payload against the `Wallpaper` shape declared in `schemas.py` lines 47–62
(required fields `title`, `anime`, `thumbnail_url`, `image_urls`; `HttpUrl`
format on URL fields; `ge=0` bounds on `price` and `downloads`; defaults
otherwise), run before the handler body (§4.4 Create). -/
def validateWallpaper (p : RawPayload) : Except ApiError Wallpaper :=
  match p.title, p.anime, p.thumbnail_url, p.image_urls with
  | some title, some anime, some thumb, some urls =>
      if isHttpUrl thumb
          && (match urls.mobile with | none => true | some u => isHttpUrl u)
          && (match urls.desktop with | none => true | some u => isHttpUrl u)
          && decide (0 ≤ p.price.getD 0)
          && decide (0 ≤ p.downloads.getD 0) then
        .ok { title := title, anime := anime, tags := p.tags.getD [],
              thumbnail_url := thumb, image_urls := urls,
              is_premium := p.is_premium.getD false,
              price := p.price.getD 0, author := p.author,
              color_palette := p.color_palette.getD [],
              aspect_ratio := p.aspect_ratio,
              downloads := (p.downloads.getD 0).toNat }
      else .error .validation
  | _, _, _, _ => .error .validation

/-- The `POST /api/wallpapers` handler `create_wallpaper` (`main.py` lines
74–80) together with the FastAPI validation boundary: a payload failing
validation never reaches the handler (the store is untouched); otherwise
the handler delegates to `create_document` (modelled from §4.1 `insert`:
the record is serialized as-is and stored under the fresh identifier), and
returns the new identifier. -/
def create_wallpaper (store : Store) (freshId : String)
    (p : RawPayload) : Except ApiError String × Store :=
  match validateWallpaper p with
  | .error e => (.error e, store)
  | .ok w => (.ok freshId, store ++ [(freshId, w)])

/-- Well-formedness of the stored URL fields: every URL the API itself can
store passed the `HttpUrl` check, so it is never the empty string (the one
value where Python truthiness and presence disagree). -/
def urlsWf (w : Wallpaper) : Bool :=
  (match w.image_urls.mobile with | none => true | some u => u ≠ "") &&
  (match w.image_urls.desktop with | none => true | some u => u ≠ "")

/-- Example document with both download URLs set. -/
def exDoc : Wallpaper :=
  { title := "Sunset", anime := "Frieren", tags := ["scenery"],
    thumbnail_url := "https://img.example/t.jpg",
    image_urls := { mobile := some "https://img.example/m.jpg",
                    desktop := some "https://img.example/d.jpg" },
    is_premium := false, price := 0, author := none, color_palette := [],
    aspect_ratio := none, downloads := 3 }

/-- Example document with only the desktop URL set. -/
def desktopOnlyDoc : Wallpaper :=
  { exDoc with image_urls := { mobile := none,
                               desktop := some "https://img.example/d.jpg" } }

/-- Example premium document. -/
def premiumDoc : Wallpaper :=
  { exDoc with is_premium := true, price := 199 }

/-- Example document whose anime name contains "naruto" case-insensitively. -/
def narutoAnimeDoc : Wallpaper :=
  { exDoc with title := "Fire", anime := "Naruto Shippuden", tags := [] }

/-- Example document whose only mention of "naruto" is a tag. -/
def narutoTagDoc : Wallpaper :=
  { exDoc with title := "Fire", anime := "Other", tags := ["Naruto"] }

/-- Example single-record store. -/
def exStore : Store := [("aaaaaaaaaaaaaaaaaaaaaaaa", exDoc)]

/-- Example store holding only a desktop-only record. -/
def dStore : Store := [("abcdefabcdefabcdefabcdef", desktopOnlyDoc)]

/-- Example store holding only a premium record. -/
def premiumStore : Store := [("dddddddddddddddddddddddd", premiumDoc)]

/-- Create payload that supplies an explicit `downloads` value of 5. -/
def payloadDl5 : RawPayload :=
  { title := some "t", anime := some "a", tags := none,
    thumbnail_url := some "https://img.example/t.jpg",
    image_urls := some { mobile := none, desktop := some "https://img.example/d.jpg" },
    is_premium := none, price := none, author := none, color_palette := none,
    aspect_ratio := none, downloads := some 5 }

/-- Create payload missing the required `title` field. -/
def missingTitlePayload : RawPayload :=
  { payloadDl5 with title := none, downloads := none }

/-- A fully valid create payload. -/
def goodPayload : RawPayload :=
  { payloadDl5 with downloads := none }

/-! ## Helper lemmas -/

/-- Looking up the incremented key after `incDownloads` sees exactly one
increment applied to the stored document. -/
theorem find_one_incDownloads (store : Store) (oid : String) :
    find_one (incDownloads store oid) oid =
      (find_one store oid).map (fun w => { w with downloads := w.downloads + 1 }) := by
  induction store with
  | nil => rfl
  | cons p rest ih =>
    by_cases h : p.1 = oid
    · simp [find_one, incDownloads, h]
    · simpa [find_one, incDownloads, h] using ih

/-- `incDownloads` leaves every other key untouched. -/
theorem find_one_incDownloads_other (store : Store) (oid other : String)
    (h : other ≠ oid) :
    find_one (incDownloads store oid) other = find_one store other := by
  induction store with
  | nil => rfl
  | cons p rest ih =>
    by_cases hp : p.1 = oid
    · simp only [incDownloads, List.map_cons, if_pos hp]
      rw [find_one, find_one, if_neg (by simpa [hp] using (Ne.symm h)),
        if_neg (by simpa [hp] using (Ne.symm h))]
      simpa [incDownloads] using ih
    · simp only [incDownloads, List.map_cons, if_neg hp]
      rw [find_one, find_one]
      by_cases hq : p.1 = other
      · simp [hq]
      · simpa [hq, incDownloads] using ih

/-- A document matching a filter that carries an `is_premium` condition has
exactly that boolean value. -/
theorem matchesFilter_premium (q a : Option String) (b : Bool) (doc : Wallpaper)
    (h : matchesFilter (buildFilter q a (some b)) doc = true) :
    doc.is_premium = b := by
  cases hq : pyTruthy q <;> cases ha : pyTruthy a <;>
    simp [buildFilter, matchesFilter, hq, ha, evalFieldCond] at h <;> tauto

/-- A payload missing any required field is rejected by validation. -/
theorem validateWallpaper_missing (p : RawPayload)
    (h : p.title = none ∨ p.anime = none ∨ p.thumbnail_url = none ∨ p.image_urls = none) :
    validateWallpaper p = .error .validation := by
  unfold validateWallpaper
  rcases ht : p.title with _ | t <;> rcases ha : p.anime with _ | a <;>
    rcases hth : p.thumbnail_url with _ | th <;> rcases hu : p.image_urls with _ | u <;>
      simp_all

/-- A validated record stores exactly the client-supplied downloads value. -/
theorem validateWallpaper_downloads (p : RawPayload) (w : Wallpaper)
    (h : validateWallpaper p = .ok w) :
    w.downloads = (p.downloads.getD 0).toNat := by
  unfold validateWallpaper at h
  split at h
  · split at h
    · cases h
      rfl
    · cases h
  · cases h

/-! ## Claim theorems -/

/-- C1: when the query parameter `q` is supplied, the search filter is the OR
of three case-insensitive substring conditions (title contains `q`, anime
contains `q`, or some tag contains `q`); when `anime` is also supplied, a
document matches the resulting filter iff it satisfies both the OR-group
from `q` and the case-insensitive substring condition on the anime field. -/
theorem search_filter_q_or_and_anime (q a : String) (doc : Wallpaper)
    (hq : q ≠ "") (ha : a ≠ "") :
    (matchesFilter (buildFilter (some q) none none) doc =
      (containsCI doc.title q || containsCI doc.anime q ||
        doc.tags.any (fun t => containsCI t q))) ∧
    (matchesFilter (buildFilter (some q) (some a) none) doc =
      ((containsCI doc.title q || containsCI doc.anime q ||
        doc.tags.any (fun t => containsCI t q)) && containsCI doc.anime a)) := by
  constructor <;>
    simp [buildFilter, matchesFilter, pyTruthy, hq, ha, evalFieldCond, Bool.or_assoc]

/-- Witness for C1: `q = "naruto"` matches the record with
`anime = "Naruto Shippuden"` and the record with `tags = ["Naruto"]`, but
not a record mentioning naruto nowhere; with `anime = "shippuden"` also
supplied, both conditions must hold. -/
theorem search_filter_q_or_and_anime_witness :
    matchesFilter (buildFilter (some "naruto") none none) narutoAnimeDoc = true ∧
    matchesFilter (buildFilter (some "naruto") none none) narutoTagDoc = true ∧
    matchesFilter (buildFilter (some "naruto") none none) exDoc = false ∧
    matchesFilter (buildFilter (some "naruto") (some "shippuden") none) narutoAnimeDoc = true := by
  refine ⟨?_, ?_, ?_, ?_⟩
  · rw [(search_filter_q_or_and_anime "naruto" "x" narutoAnimeDoc (by decide) (by decide)).1]
    decide
  · rw [(search_filter_q_or_and_anime "naruto" "x" narutoTagDoc (by decide) (by decide)).1]
    decide
  · rw [(search_filter_q_or_and_anime "naruto" "x" exDoc (by decide) (by decide)).1]
    decide
  · rw [(search_filter_q_or_and_anime "naruto" "shippuden" narutoAnimeDoc (by decide) (by decide)).2]
    decide

/-- C2: on an existing record, `device = "mobile"` resolves
`image_urls.mobile` with no fallback to desktop; any other device resolves
`image_urls.desktop`, falling back to `image_urls.mobile` when desktop is
absent; an absent resolved URL fails with `invalidState` (HTTP 400),
otherwise the resolved URL is returned. -/
theorem download_url_resolution (store : Store) (id dev : String)
    (doc : Wallpaper) (hid : isValidObjectId id = true)
    (hdoc : find_one store id = some doc) (hwf : urlsWf doc = true) :
    (download_wallpaper store id dev).1 =
      (if dev = "mobile" then
        match doc.image_urls.mobile with
        | some u => .ok u
        | none => .error .invalidState
      else
        match doc.image_urls.desktop with
        | some u => .ok u
        | none =>
          match doc.image_urls.mobile with
          | some u => .ok u
          | none => .error .invalidState) ∧
    statusCode .invalidState = 400 := by
  refine ⟨?_, rfl⟩
  unfold download_wallpaper
  rw [if_neg (by simp [hid]), hdoc]
  dsimp only
  rcases hm : doc.image_urls.mobile with _ | um <;>
    rcases hd : doc.image_urls.desktop with _ | ud <;>
      simp [urlsWf, hm, hd] at hwf <;>
        by_cases hdev : dev = "mobile" <;>
          simp [pyTruthy, pyOr, hm, hd, hdev, hwf]

/-- Witness for C2: on a record with only the desktop URL set,
`device = "mobile"` fails with `invalidState` while `device = "desktop"`
returns the desktop URL. -/
theorem download_url_resolution_witness :
    (download_wallpaper dStore "abcdefabcdefabcdefabcdef" "mobile").1 =
      .error .invalidState ∧
    (download_wallpaper dStore "abcdefabcdefabcdefabcdef" "desktop").1 =
      .ok "https://img.example/d.jpg" := by
  constructor
  · rw [(download_url_resolution dStore "abcdefabcdefabcdefabcdef" "mobile"
      desktopOnlyDoc (by decide) (by decide) (by decide)).1]
    rfl
  · rw [(download_url_resolution dStore "abcdefabcdefabcdefabcdef" "desktop"
      desktopOnlyDoc (by decide) (by decide) (by decide)).1]
    rfl

/-- C3: on an existing record, the download handler increments the record's
`downloads` counter by exactly 1 — the post-state is `incDownloads` of the
pre-state whether URL resolution succeeds or fails, and re-reading the
record sees the old counter plus 1. -/
theorem download_increments_once (store : Store) (id dev : String)
    (doc : Wallpaper) (hid : isValidObjectId id = true)
    (hdoc : find_one store id = some doc) :
    (download_wallpaper store id dev).2 = incDownloads store id ∧
    find_one (download_wallpaper store id dev).2 id =
      some { doc with downloads := doc.downloads + 1 } := by
  have hstore : (download_wallpaper store id dev).2 = incDownloads store id := by
    unfold download_wallpaper
    rw [if_neg (by simp [hid]), hdoc]
    split
    · simp_all
    · next d heq =>
      cases heq
      dsimp only
      split <;> split <;> rfl
  refine ⟨hstore, ?_⟩
  rw [hstore, find_one_incDownloads, hdoc]
  rfl

/-- Witness for C3: downloading the example record bumps its counter from
3 to 4. -/
theorem download_increments_once_witness :
    (download_wallpaper exStore "aaaaaaaaaaaaaaaaaaaaaaaa" "mobile").2 =
      incDownloads exStore "aaaaaaaaaaaaaaaaaaaaaaaa" ∧
    find_one (download_wallpaper exStore "aaaaaaaaaaaaaaaaaaaaaaaa" "mobile").2
        "aaaaaaaaaaaaaaaaaaaaaaaa" =
      some { exDoc with downloads := exDoc.downloads + 1 } :=
  download_increments_once exStore "aaaaaaaaaaaaaaaaaaaaaaaa" "mobile" exDoc
    (by decide) (by decide)

/-- C4 counterexample: the identifier `"zz"` corresponds to no stored
record, yet the request fails with the generic 500 (`internal`, from the
failed `ObjectId` construction), not with `notFound`. -/
theorem download_notfound_counterexample :
    find_one exStore "zz" = none ∧
    (download_wallpaper exStore "zz" "desktop").1 = .error .internal ∧
    ApiError.internal ≠ ApiError.notFound :=
  ⟨rfl, rfl, by decide⟩

/-- C4 (amended): for every download request whose identifier is a
well-formed ObjectId that corresponds to no stored record, the request
fails with `notFound` and the store — every record and counter — is left
unchanged. -/
theorem download_notfound_no_mutation (store : Store) (id dev : String)
    (hid : isValidObjectId id = true) (h : find_one store id = none) :
    download_wallpaper store id dev = (.error .notFound, store) := by
  simp [download_wallpaper, hid, h]

/-- Witness for the amended C4: a well-formed absent identifier yields 404
and leaves the example store intact. -/
theorem download_notfound_no_mutation_witness :
    download_wallpaper exStore "bbbbbbbbbbbbbbbbbbbbbbbb" "desktop" =
      (.error .notFound, exStore) :=
  download_notfound_no_mutation exStore "bbbbbbbbbbbbbbbbbbbbbbbb" "desktop"
    (by decide) (by decide)

/-- C5: the `limit` parameter defaults to 24 and must lie in `[1, 100]`;
an out-of-range value makes the whole search fail with a validation error
regardless of the store (so no store query runs), while every in-range
value is passed through unchanged (never clamped). -/
theorem limit_validation (n : Int) :
    (∀ store q a p, (n < 1 ∨ 100 < n) →
      list_wallpapers store q a p (some n) = .error .validation) ∧
    (1 ≤ n ∧ n ≤ 100 → validateLimit (some n) = .ok n.toNat) ∧
    validateLimit none = .ok 24 := by
  refine ⟨?_, ?_, rfl⟩
  · intro store q a p h
    have : ¬ (1 ≤ n ∧ n ≤ 100) := by omega
    simp [list_wallpapers, validateLimit, this]
  · intro h
    simp [validateLimit, h]

/-- Witness for C5: limits 0 and 101 are rejected, limit 24 is accepted
unchanged. -/
theorem limit_validation_witness :
    list_wallpapers exStore none none none (some 0) = .error .validation ∧
    list_wallpapers exStore none none none (some 101) = .error .validation ∧
    validateLimit (some 24) = .ok 24 := by
  refine ⟨(limit_validation 0).1 exStore none none none (by omega), ?_, ?_⟩
  · exact (limit_validation 101).1 exStore none none none (by omega)
  · have h := (limit_validation 24).2.1 (by omega)
    simpa using h

/-- C6 counterexample: the create payload `payloadDl5` supplies
`downloads = 5`; creation succeeds and the stored record's counter starts
at 5, so a client can set the `downloads` value directly through the create
operation. -/
theorem downloads_client_settable :
    (create_wallpaper [] "eeeeeeeeeeeeeeeeeeeeeeee" payloadDl5).1 =
      .ok "eeeeeeeeeeeeeeeeeeeeeeee" ∧
    ((create_wallpaper [] "eeeeeeeeeeeeeeeeeeeeeeee" payloadDl5).2.map
      (fun pr => pr.2.downloads)) = [5] :=
  ⟨rfl, rfl⟩

/-- C6 (amended): existing records' `downloads` counters change only
through a download request, and then by exactly 1 (the target record is
incremented, every other record untouched); the create operation never
touches existing records, but the new record's initial counter is the
client-supplied payload value (default 0), so create does not protect the
field. -/
theorem downloads_evolution (store : Store) (id dev fid : String) (p : RawPayload) :
    ((create_wallpaper store fid p).2 = store ∨
      ∃ w, validateWallpaper p = .ok w ∧ w.downloads = (p.downloads.getD 0).toNat ∧
        (create_wallpaper store fid p).2 = store ++ [(fid, w)]) ∧
    ((download_wallpaper store id dev).2 = store ∨
      ((download_wallpaper store id dev).2 = incDownloads store id ∧
        find_one (incDownloads store id) id =
          (find_one store id).map (fun w => { w with downloads := w.downloads + 1 }) ∧
        ∀ other, other ≠ id →
          find_one (incDownloads store id) other = find_one store other)) := by
  constructor
  · unfold create_wallpaper
    cases hv : validateWallpaper p with
    | error e => exact Or.inl rfl
    | ok w => exact Or.inr ⟨w, rfl, validateWallpaper_downloads p w hv, rfl⟩
  · by_cases hid : isValidObjectId id = true
    · cases hdoc : find_one store id with
      | none =>
        left
        unfold download_wallpaper
        rw [if_neg (by simp [hid]), hdoc]
      | some doc =>
        right
        refine ⟨?_, by rw [find_one_incDownloads, hdoc], ?_⟩
        · unfold download_wallpaper
          rw [if_neg (by simp [hid]), hdoc]
          dsimp only
          split <;> split <;> rfl
        · intro other hne
          exact find_one_incDownloads_other store id other hne
    · left
      unfold download_wallpaper
      rw [if_pos (by simpa using hid)]

/-- Witness for the amended C6: downloading one record leaves the lookup of
a different key unchanged. -/
theorem downloads_evolution_witness :
    find_one (incDownloads exStore "aaaaaaaaaaaaaaaaaaaaaaaa")
        "cccccccccccccccccccccccc" =
      find_one exStore "cccccccccccccccccccccccc" := by
  have h := (downloads_evolution exStore "aaaaaaaaaaaaaaaaaaaaaaaa" "mobile"
    "eeeeeeeeeeeeeeeeeeeeeeee" payloadDl5).2
  rcases h with h | ⟨_, _, hother⟩
  · exact absurd h (by decide)
  · exact hother "cccccccccccccccccccccccc" (by decide)

/-- C7: every item returned by a search that fixes `is_premium = b` has
exactly that boolean value, so premium and non-premium records are never
returned by the opposite query (the filter is an exact match on the
boolean field). -/
theorem premium_filter_exact (store : Store) (q a : Option String)
    (rawLim : Option Int) (b : Bool) (res : Store)
    (hres : list_wallpapers store q a (some b) rawLim = .ok res)
    (pr : String × Wallpaper) (hmem : pr ∈ res) :
    pr.2.is_premium = b := by
  unfold list_wallpapers at hres
  cases hval : validateLimit rawLim with
  | error e => rw [hval] at hres; cases hres
  | ok lim =>
    rw [hval] at hres
    simp only [Except.ok.injEq] at hres
    subst hres
    unfold get_documents at hmem
    have h1 : pr ∈ store.filter (fun p => matchesFilter (buildFilter q a (some b)) p.2) :=
      List.mem_of_mem_take hmem
    exact matchesFilter_premium q a b pr.2 (List.mem_filter.mp h1).2

/-- Witness for C7: the premium example record returned by an
`is_premium = true` query is indeed premium. -/
theorem premium_filter_exact_witness : premiumDoc.is_premium = true :=
  premium_filter_exact premiumStore none none none true
    [("dddddddddddddddddddddddd", premiumDoc)] rfl
    ("dddddddddddddddddddddddd", premiumDoc) (by simp)

/-- C8: a create payload missing a required field (title, anime,
thumbnail_url or image_urls) or violating the `price ≥ 0` constraint is
rejected by validation, the handler is never reached and the store is not
touched; on a valid payload the handler delegates to insert and returns
the new identifier. -/
theorem create_validation (store : Store) (fid : String) (p : RawPayload) :
    ((p.title = none ∨ p.anime = none ∨ p.thumbnail_url = none ∨ p.image_urls = none) →
      validateWallpaper p = .error .validation) ∧
    (∀ n : Int, n < 0 → p.price = some n → validateWallpaper p = .error .validation) ∧
    (∀ e, validateWallpaper p = .error e →
      create_wallpaper store fid p = (.error e, store)) ∧
    (∀ w, validateWallpaper p = .ok w →
      create_wallpaper store fid p = (.ok fid, store ++ [(fid, w)])) := by
  refine ⟨validateWallpaper_missing p, ?_, ?_, ?_⟩
  · intro n hn hpr
    unfold validateWallpaper
    rcases ht : p.title with _ | t <;> rcases ha : p.anime with _ | a <;>
      rcases hth : p.thumbnail_url with _ | th <;> rcases hu : p.image_urls with _ | u <;>
        simp_all
  · intro e he
    unfold create_wallpaper
    rw [he]
  · intro w hw
    unfold create_wallpaper
    rw [hw]

/-- Witness for C8: a payload missing `title` makes the create endpoint
fail with a validation error and leaves the store unchanged. -/
theorem create_validation_witness :
    create_wallpaper exStore "ffffffffffffffffffffffff" missingTitlePayload =
      (.error .validation, exStore) :=
  (create_validation exStore "ffffffffffffffffffffffff" missingTitlePayload).2.2.1
    ApiError.validation
    ((create_validation exStore "ffffffffffffffffffffffff" missingTitlePayload).1
      (Or.inl rfl))

/-- C9: an empty-string `q` or `anime` is falsy in Python, contributes no
filter condition, and the search behaves exactly as if the parameter were
absent. -/
theorem empty_param_like_absent (store : Store) (q a : Option String)
    (p : Option Bool) (l : Option Int) :
    list_wallpapers store (some "") a p l = list_wallpapers store none a p l ∧
    list_wallpapers store q (some "") p l = list_wallpapers store q none p l := by
  have h1 : buildFilter (some "") a p = buildFilter none a p := by
    simp [buildFilter, pyTruthy]
  have h2 : buildFilter q (some "") p = buildFilter q none p := by
    simp [buildFilter, pyTruthy]
  constructor <;> simp [list_wallpapers, h1, h2]

/-- C10: a download request whose identifier is not a well-formed ObjectId
fails with the generic 500 (`internal`) — not `notFound`/404 — and the
store is left untouched. -/
theorem malformed_objectid_500 (store : Store) (id dev : String)
    (h : isValidObjectId id = false) :
    download_wallpaper store id dev = (.error .internal, store) ∧
    statusCode .internal = 500 ∧ ApiError.internal ≠ ApiError.notFound := by
  refine ⟨?_, rfl, by decide⟩
  simp [download_wallpaper, h]

/-- Witness for C10: the malformed identifier `"xyz"` yields the 500 path
on the example store. -/
theorem malformed_objectid_500_witness :
    download_wallpaper exStore "xyz" "mobile" = (.error .internal, exStore) ∧
    statusCode .internal = 500 ∧ ApiError.internal ≠ ApiError.notFound :=
  malformed_objectid_500 exStore "xyz" "mobile" (by decide)

end Wallpapers
